import Mathlib

/-!
Verification of the Rail Baron lookup engine (rail_baron.py).

The embedding translates the core classes of the source:
* DiceRoll (a namedtuple with fields odd_or_even and number),
* DestinationDataSource (built by from_csv over a defaultdict; lookup
  operations pick_region and pick_city, dice model _roll_dice),
* PayoffDataSource (plain nested dict; get_cities and get_payoff).

Python dicts are embedded as association lists with unique keys, with
insertion-order-preserving update (dictInsert) and first-match lookup
(dictGet).  The defaultdict produced by from_csv is embedded by
defaultdictGet, which returns the possibly-extended table: a failed
lookup inserts an empty sub-table (auto-vivification), exactly as
collections.defaultdict does.  A Python KeyError (a LookupError) is
embedded as an Option-valued result being none.
-/

/-- DiceRoll = collections.namedtuple with fields odd_or_even, number. -/
structure DiceRoll where
  odd_or_even : String
  number : Int
deriving DecidableEq, Repr

/-- Python str.strip(): drop whitespace from both ends. -/
def pyStrip (s : String) : String :=
  String.mk (((s.toList.dropWhile Char.isWhitespace).reverse.dropWhile
    Char.isWhitespace).reverse)

/-- Python dict lookup: first (unique) matching key, none = KeyError. -/
def dictGet {α β : Type} [DecidableEq α] : List (α × β) → α → Option β
  | [], _ => none
  | (k0, v0) :: rest, k => if k0 = k then some v0 else dictGet rest k

/-- Python dict assignment d[k] = v: replace in place, else append. -/
def dictInsert {α β : Type} [DecidableEq α] : List (α × β) → α → β → List (α × β)
  | [], k, v => [(k, v)]
  | (k0, v0) :: rest, k, v =>
    if k0 = k then (k0, v) :: rest else (k0, v0) :: dictInsert rest k v

/-- A second-level table: DiceRoll -> destination name. -/
abbrev RegionMap := List (DiceRoll × String)

/-- The defaultdict held by DestinationDataSource: region -> RegionMap. -/
abbrev DataMaps := List (String × RegionMap)

/-- Subscripting the defaultdict(lambda: \x7b\x7d): a missing key is inserted
with an empty sub-table and that empty table is returned. -/
def defaultdictGet (m : DataMaps) (k : String) : RegionMap × DataMaps :=
  match dictGet m k with
  | some rm => (rm, m)
  | none => ([], dictInsert m k [])

/-- _roll_dice: random.choice(['odd','even']) and the sum of two
randrange(1,7) draws, with the random outcomes made explicit inputs. -/
def roll_dice (c : Bool) (d1 d2 : Nat) : DiceRoll :=
  ⟨if c then "odd" else "even", (d1 : Int) + (d2 : Int)⟩

/-- pick_city: self._data_maps[region][roll].  State-passing embedding of
the defaultdict subscript followed by the plain dict subscript. -/
def pick_city (m : DataMaps) (region : String) (roll : DiceRoll) :
    Option String × DataMaps :=
  let p := defaultdictGet m region
  (dictGet p.1 roll, p.2)

/-- pick_region: self._data_maps['area'][roll]. -/
def pick_region (m : DataMaps) (roll : DiceRoll) : Option String × DataMaps :=
  let p := defaultdictGet m "area"
  (dictGet p.1 roll, p.2)

/-- A CSV row as handed out by csv.DictReader: field name -> raw text. -/
abbrev Row := List (String × String)

/-- The exceptions from_csv can raise while consuming a row: KeyError for
a missing field (a LookupError) and ValueError from int() (not one). -/
inductive CsvError where
  | keyError (field : String)
  | valueError (text : String)
deriving DecidableEq, Repr

/-- Which of the construction-time exceptions are LookupErrors in
Python's exception hierarchy (KeyError is, ValueError is not). -/
def CsvError.isLookupError : CsvError → Bool
  | .keyError _ => true
  | .valueError _ => false

/-- Digit run accumulator for int(): all remaining chars must be digits. -/
def parseDigitsAux : List Char → Nat → Option Nat
  | [], acc => some acc
  | c :: cs, acc =>
    if c.isDigit then parseDigitsAux cs (acc * 10 + (c.toNat - 48)) else none

/-- Python int(str): surrounding whitespace tolerated, optional sign,
then a nonempty run of decimal digits; anything else is a ValueError. -/
def pyParseInt (s : String) : Option Int :=
  match (pyStrip s).toList with
  | [] => none
  | '-' :: [] => none
  | '-' :: c :: cs => (parseDigitsAux (c :: cs) 0).map (fun n => -(n : Int))
  | '+' :: [] => none
  | '+' :: c :: cs => (parseDigitsAux (c :: cs) 0).map (fun n => (n : Int))
  | c :: cs => (parseDigitsAux (c :: cs) 0).map (fun n => (n : Int))

/-- One iteration of the from_csv loop, in the source's evaluation order:
row['region'] stripped (KeyError if the field is missing), the
auto-vivifying defaultdict subscript, then for the assignment statement
the value row['name'].strip(), the key's row['odd/even'].strip() and
int(row['number']) (ValueError on a bad integer), then the insertion. -/
def processRow (m : DataMaps) (row : Row) : Except CsvError DataMaps :=
  match dictGet row "region" with
  | none => .error (.keyError "region")
  | some regionRaw =>
    let region := pyStrip regionRaw
    let p := defaultdictGet m region
    match dictGet row "name" with
    | none => .error (.keyError "name")
    | some nameRaw =>
      match dictGet row "odd/even" with
      | none => .error (.keyError "odd/even")
      | some parityRaw =>
        match dictGet row "number" with
        | none => .error (.keyError "number")
        | some numRaw =>
          match pyParseInt numRaw with
          | none => .error (.valueError numRaw)
          | some n =>
            .ok (dictInsert p.2 region
              (dictInsert p.1 ⟨pyStrip parityRaw, n⟩ (pyStrip nameRaw)))

/-- The from_csv loop from an intermediate table: stops at the first
raising row (fail fast), threading the table through otherwise. -/
def from_csvFrom (m : DataMaps) : List Row → Except CsvError DataMaps
  | [] => .ok m
  | row :: rest =>
    match processRow m row with
    | .ok m1 => from_csvFrom m1 rest
    | .error e => .error e

/-- DestinationDataSource.from_csv: fold the rows into an initially
empty defaultdict; an exception aborts construction with no table. -/
def from_csv (rows : List Row) : Except CsvError DataMaps :=
  from_csvFrom [] rows

/-- Two-level lookup in a constructed table (pure, non-vivifying view,
used to state what a table contains). -/
def dictGet2 (m : DataMaps) (r : String) (k : DiceRoll) : Option String :=
  (dictGet m r).bind (fun rm => dictGet rm k)

/-- Lookup through a construction result: a failed construction holds
no table at all. -/
def lookupResult (e : Except CsvError DataMaps) (r : String) (k : DiceRoll) :
    Option String :=
  match e with
  | .error _ => none
  | .ok m => dictGet2 m r k

/-- The nested payoff dict held by PayoffDataSource. -/
abbrev PayoffDict := List (String × List (String × Int))

/-- get_payoff: self._payoff_dict[source_city][destination_city]. -/
def get_payoff (pd : PayoffDict) (source_city destination_city : String) :
    Option Int :=
  match dictGet pd source_city with
  | none => none
  | some inner => dictGet inner destination_city

/-- get_cities: sorted(self._payoff_dict.iterkeys()).  Python's sorted is
a stable ascending sort; embedded as insertion sort on the key list. -/
def get_cities (pd : PayoffDict) : List String :=
  List.insertionSort (· ≤ ·) (pd.map Prod.fst)

/-- The 22 dice outcomes the dice model can produce: each parity paired
with each sum from 2 to 12. -/
def allRolls : List DiceRoll :=
  (List.range 11).flatMap (fun k => [⟨"odd", (k : Int) + 2⟩, ⟨"even", (k : Int) + 2⟩])

theorem dictGet_dictInsert_self {α β : Type} [DecidableEq α]
    (m : List (α × β)) (k : α) (v : β) :
    dictGet (dictInsert m k v) k = some v := by
  induction m with
  | nil => simp [dictInsert, dictGet]
  | cons hd tl ih =>
    obtain ⟨k0, v0⟩ := hd
    by_cases h : k0 = k
    · simp [dictInsert, dictGet, h]
    · simp [dictInsert, dictGet, h, ih]

theorem dictGet_dictInsert_ne {α β : Type} [DecidableEq α]
    (m : List (α × β)) (k k1 : α) (v : β) (hne : k1 ≠ k) :
    dictGet (dictInsert m k v) k1 = dictGet m k1 := by
  induction m with
  | nil => simp [dictInsert, dictGet, Ne.symm hne]
  | cons hd tl ih =>
    obtain ⟨k0, v0⟩ := hd
    by_cases h : k0 = k
    · subst h
      simp [dictInsert, dictGet, Ne.symm hne]
    · simp only [dictInsert, if_neg h, dictGet]
      by_cases h0 : k0 = k1
      · simp [h0]
      · simp [h0, ih]

theorem defaultdictGet_of_some (m : DataMaps) (k : String) (rm : RegionMap)
    (h : dictGet m k = some rm) : defaultdictGet m k = (rm, m) := by
  simp [defaultdictGet, h]

theorem defaultdictGet_of_none (m : DataMaps) (k : String)
    (h : dictGet m k = none) :
    defaultdictGet m k = ([], dictInsert m k []) := by
  simp [defaultdictGet, h]

theorem from_csvFrom_append (m : DataMaps) (rows rows1 : List Row) :
    from_csvFrom m (rows ++ rows1) =
      match from_csvFrom m rows with
      | .ok m1 => from_csvFrom m1 rows1
      | .error e => .error e := by
  induction rows generalizing m with
  | nil => simp [from_csvFrom]
  | cons row rest ih =>
    simp only [List.cons_append, from_csvFrom]
    cases h : processRow m row with
    | ok m1 => simp [ih]
    | error e => simp

theorem mem_allRolls (p : Bool) (n : Int) (h1 : 2 ≤ n) (h2 : n ≤ 12) :
    (⟨if p then "odd" else "even", n⟩ : DiceRoll) ∈ allRolls := by
  interval_cases n <;> cases p <;> decide

theorem roll_dice_mem_allRolls (c : Bool) (d1 d2 : Nat)
    (h1 : 1 ≤ d1) (h2 : d1 ≤ 6) (h3 : 1 ≤ d2) (h4 : d2 ≤ 6) :
    roll_dice c d1 d2 ∈ allRolls := by
  have l1 : (2 : Int) ≤ (d1 : Int) + (d2 : Int) := by omega
  have l2 : (d1 : Int) + (d2 : Int) ≤ 12 := by omega
  exact mem_allRolls c _ l1 l2

/-- A fully covered region sub-table: every one of the 22 dice outcomes
mapped to a city name (used to witness the coverage property). -/
def rm22 : RegionMap := allRolls.map (fun r => (r, "Boston"))

/-- C1 counterexample: the tables are NOT left unchanged by every lookup.
pick_city on a region absent from the table inserts a new empty
sub-table for that region (defaultdict auto-vivification), so the
region mapping after the failing call differs from the one before. -/
theorem C1_counterexample :
    pick_city [("area", [(⟨"odd", 7⟩, "East")])] "nowhere" ⟨"odd", 7⟩
      = (none, [("area", [(⟨"odd", 7⟩, "East")]), ("nowhere", [])])
    ∧ ([("area", [(⟨"odd", 7⟩, "East")]), ("nowhere", [])] : DataMaps)
      ≠ [("area", [(⟨"odd", 7⟩, "East")])] := by
  decide

/-- C1 (amended): pick_city and pick_region leave the region tables
unchanged whenever the looked-up region key exists (and the payoff
operations, plain-dict reads, never mutate — embedded as pure
functions); but a lookup whose region key is absent inserts a new empty
sub-table for exactly that key, since from_csv hands the constructor a
defaultdict. -/
theorem C1_lookups_mutate_only_by_vivification
    (m : DataMaps) (region : String) (roll : DiceRoll) :
    ((dictGet m region).isSome = true → (pick_city m region roll).2 = m)
    ∧ (dictGet m region = none →
        (pick_city m region roll).2 = dictInsert m region [])
    ∧ ((dictGet m "area").isSome = true → (pick_region m roll).2 = m)
    ∧ (dictGet m "area" = none →
        (pick_region m roll).2 = dictInsert m "area" []) := by
  refine ⟨?_, ?_, ?_, ?_⟩
  · intro h
    obtain ⟨rm, hrm⟩ := Option.isSome_iff_exists.mp h
    simp [pick_city, defaultdictGet, hrm]
  · intro h
    simp [pick_city, defaultdictGet, h]
  · intro h
    obtain ⟨rm, hrm⟩ := Option.isSome_iff_exists.mp h
    simp [pick_region, defaultdictGet, hrm]
  · intro h
    simp [pick_region, defaultdictGet, h]

theorem C1_lookups_mutate_only_by_vivification_witness :
    (pick_city [("area", [(⟨"odd", 7⟩, "East")])] "area" ⟨"odd", 7⟩).2
      = [("area", [(⟨"odd", 7⟩, "East")])] :=
  (C1_lookups_mutate_only_by_vivification
    [("area", [(⟨"odd", 7⟩, "East")])] "area" ⟨"odd", 7⟩).1 (by decide)

/-- C2: pick_city with a region that has no sub-table yields a KeyError
(a LookupError), never a default or placeholder value — the vivified
sub-table is empty, so the inner subscript fails; and when the region
exists but the rolled DiceRoll has no entry in its sub-table, the
lookup fails the same way. -/
theorem C2_pick_city_raises (m : DataMaps) (region : String) (roll : DiceRoll) :
    (dictGet m region = none → (pick_city m region roll).1 = none)
    ∧ (∀ rm, dictGet m region = some rm → dictGet rm roll = none →
        (pick_city m region roll).1 = none) := by
  constructor
  · intro h
    simp [pick_city, defaultdictGet, h, dictGet]
  · intro rm h1 h2
    simp [pick_city, defaultdictGet, h1, h2]

theorem C2_pick_city_raises_witness :
    (pick_city [("area", [(⟨"odd", 7⟩, "East")])] "nowhere" ⟨"even", 3⟩).1
      = none :=
  (C2_pick_city_raises [("area", [(⟨"odd", 7⟩, "East")])] "nowhere"
    ⟨"even", 3⟩).1 (by decide)

/-- C3: if a region's sub-table has an entry for every one of the 22
possible dice outcomes, then pick_city on that region succeeds for
every outcome of the dice model; and when that region is "area",
pick_region succeeds likewise. -/
theorem C3_coverage (m : DataMaps) (region : String) (rm : RegionMap)
    (c : Bool) (d1 d2 : Nat)
    (hreg : dictGet m region = some rm)
    (hcov : allRolls.all (fun r => (dictGet rm r).isSome) = true)
    (h1 : 1 ≤ d1) (h2 : d1 ≤ 6) (h3 : 1 ≤ d2) (h4 : d2 ≤ 6) :
    ((pick_city m region (roll_dice c d1 d2)).1).isSome = true
    ∧ (region = "area" →
        ((pick_region m (roll_dice c d1 d2)).1).isSome = true) := by
  have hmem := roll_dice_mem_allRolls c d1 d2 h1 h2 h3 h4
  have hsome := List.all_eq_true.mp hcov _ hmem
  constructor
  · simpa [pick_city, defaultdictGet, hreg] using hsome
  · intro he
    subst he
    simpa [pick_region, defaultdictGet, hreg] using hsome

theorem C3_coverage_witness :
    ((pick_city [("area", rm22)] "area" (roll_dice true 3 4)).1).isSome = true
    ∧ ((pick_region [("area", rm22)] (roll_dice true 3 4)).1).isSome = true :=
  ⟨(C3_coverage [("area", rm22)] "area" rm22 true 3 4 (by decide) (by decide)
      (by decide) (by decide) (by decide) (by decide)).1,
   (C3_coverage [("area", rm22)] "area" rm22 true 3 4 (by decide) (by decide)
      (by decide) (by decide) (by decide) (by decide)).2 rfl⟩

/-- C4: get_payoff returns the stored amount whenever both the source
key and, within its inner mapping, the destination key exist (including
source = destination, with no synthesized default), and yields a
KeyError exactly when the source is absent from the outer mapping or
the destination is absent from the inner one; in particular the Boston
to Chicago payoff of 800 is not mirrored in the reverse direction. -/
theorem C4_get_payoff (pd : PayoffDict) (s d : String) :
    (∀ inner a, dictGet pd s = some inner → dictGet inner d = some a →
        get_payoff pd s d = some a)
    ∧ (get_payoff pd s d = none ↔
        dictGet pd s = none ∨
          ∃ inner, dictGet pd s = some inner ∧ dictGet inner d = none)
    ∧ get_payoff [("Boston", [("Chicago", 800)])] "Boston" "Chicago" = some 800
    ∧ get_payoff [("Boston", [("Chicago", 800)])] "Chicago" "Boston" = none
    ∧ get_payoff [("Boston", [("Boston", 70)])] "Boston" "Boston" = some 70
    ∧ get_payoff [("Boston", [("Chicago", 800)])] "Boston" "Boston" = none := by
  refine ⟨?_, ?_, by decide, by decide, by decide, by decide⟩
  · intro inner a h1 h2
    simp [get_payoff, h1, h2]
  · cases h : dictGet pd s with
    | none => simp [get_payoff, h]
    | some inner =>
      simp only [get_payoff, h]
      constructor
      · intro h2
        exact Or.inr ⟨inner, rfl, h2⟩
      · rintro (h2 | ⟨inner2, he, h2⟩)
        · exact absurd h2 (by simp)
        · cases he
          exact h2

theorem C4_get_payoff_witness :
    get_payoff [("Boston", [("Chicago", 800)])] "Boston" "Chicago"
      = some 800 :=
  (C4_get_payoff [("Boston", [("Chicago", 800)])] "Boston" "Chicago").1
    [("Chicago", 800)] 800 (by decide) (by decide)

/-- C5: get_cities returns exactly the source-city keys of the outer
mapping (a permutation of them), sorted in ascending lexicographic
order; under the dict invariant that the outer keys are unique it has
no duplicates; it is a pure function of the table, so two calls on the
same table are equal by construction. -/
theorem C5_get_cities (pd : PayoffDict) :
    List.Perm (get_cities pd) (pd.map Prod.fst)
    ∧ List.Sorted (· ≤ ·) (get_cities pd)
    ∧ ((pd.map Prod.fst).Nodup → (get_cities pd).Nodup) := by
  refine ⟨List.perm_insertionSort _ _, List.sorted_insertionSort _ _, ?_⟩
  intro h
  exact ((List.perm_insertionSort (· ≤ ·) (pd.map Prod.fst)).nodup_iff).mpr h

theorem C5_get_cities_witness :
    (get_cities [("Boston", []), ("Albany", []), ("Chicago", [])]).Nodup :=
  (C5_get_cities [("Boston", []), ("Albany", []), ("Chicago", [])]).2.2
    (by decide)

/-- C6: on the table holding exactly the "area" mapping (odd, 7) to
East and the "East" mapping (odd, 7) to Boston, with the dice forced to
(odd, 7) on both calls (parity choice odd, dice 3 and 4), pick_region
returns East and pick_city on East returns Boston, each leaving the
table unchanged. -/
theorem C6_round_trip :
    pick_region
        [("area", [(⟨"odd", 7⟩, "East")]), ("East", [(⟨"odd", 7⟩, "Boston")])]
        (roll_dice true 3 4)
      = (some "East",
         [("area", [(⟨"odd", 7⟩, "East")]), ("East", [(⟨"odd", 7⟩, "Boston")])])
    ∧ pick_city
        [("area", [(⟨"odd", 7⟩, "East")]), ("East", [(⟨"odd", 7⟩, "Boston")])]
        "East" (roll_dice true 3 4)
      = (some "Boston",
         [("area", [(⟨"odd", 7⟩, "East")]), ("East", [(⟨"odd", 7⟩, "Boston")])]) := by
  decide

/-- C7: for every outcome of the random draws — a parity choice and two
die values in 1..6 — roll_dice returns the chosen parity verbatim (the
same parity whatever the dice show, so it is not derived from the sum)
and the sum of the two dice as its number, which lies in 2..12. -/
theorem C7_roll_dice (c : Bool) (d1 d2 e1 e2 : Nat)
    (h1 : 1 ≤ d1) (h2 : d1 ≤ 6) (h3 : 1 ≤ d2) (h4 : d2 ≤ 6) :
    (roll_dice c d1 d2).odd_or_even = (if c then "odd" else "even")
    ∧ (roll_dice c d1 d2).odd_or_even = (roll_dice c e1 e2).odd_or_even
    ∧ (roll_dice c d1 d2).number = (d1 : Int) + (d2 : Int)
    ∧ 2 ≤ (roll_dice c d1 d2).number
    ∧ (roll_dice c d1 d2).number ≤ 12 := by
  refine ⟨rfl, rfl, rfl, ?_, ?_⟩ <;> simp only [roll_dice] <;> omega

theorem C7_roll_dice_witness :
    (roll_dice true 3 4).odd_or_even = "odd"
    ∧ 2 ≤ (roll_dice true 3 4).number ∧ (roll_dice true 3 4).number ≤ 12 :=
  ⟨(C7_roll_dice true 3 4 1 1 (by decide) (by decide) (by decide)
      (by decide)).1,
   (C7_roll_dice true 3 4 1 1 (by decide) (by decide) (by decide)
      (by decide)).2.2.2.1,
   (C7_roll_dice true 3 4 1 1 (by decide) (by decide) (by decide)
      (by decide)).2.2.2.2⟩

theorem dictGet2_after_insert (m : DataMaps) (region : String)
    (key : DiceRoll) (val : String) :
    dictGet2 (dictInsert (defaultdictGet m region).2 region
        (dictInsert (defaultdictGet m region).1 key val)) region key = some val
    ∧ ∀ r k, (r ≠ region ∨ k ≠ key) →
        dictGet2 (dictInsert (defaultdictGet m region).2 region
          (dictInsert (defaultdictGet m region).1 key val)) r k
          = dictGet2 m r k := by
  cases h : dictGet m region with
  | some rm =>
    rw [defaultdictGet_of_some m region rm h]
    constructor
    · simp [dictGet2, dictGet_dictInsert_self]
    · intro r k hrk
      by_cases hr : r = region
      · subst hr
        rcases hrk with hne | hne
        · exact absurd rfl hne
        · simp [dictGet2, dictGet_dictInsert_self, h,
            dictGet_dictInsert_ne _ key k val hne]
      · simp [dictGet2, dictGet_dictInsert_ne _ region r _ hr]
  | none =>
    rw [defaultdictGet_of_none m region h]
    constructor
    · simp [dictGet2, dictGet_dictInsert_self, dictInsert, dictGet]
    · intro r k hrk
      by_cases hr : r = region
      · subst hr
        rcases hrk with hne | hne
        · exact absurd rfl hne
        · simp [dictGet2, dictGet_dictInsert_self, h, dictInsert, dictGet,
            Ne.symm hne]
      · have e1 := dictGet_dictInsert_ne (dictInsert m region []) region r
          (dictInsert [] key val) hr
        have e2 := dictGet_dictInsert_ne m region r ([] : RegionMap) hr
        simp [dictGet2, e1, e2]

/-- C8: appending a well-formed record to a successfully constructed
table strips whitespace from the region, parity and name fields,
converts the number field to an integer the way int() does (whitespace
tolerated), and stores the stripped name under (stripped region,
DiceRoll of stripped parity and that integer) — overwriting whatever an
earlier record stored at that key (last write wins) — while every other
(region, roll) lookup is unchanged. -/
theorem C8_from_csv_insert (rows : List Row) (m : DataMaps) (row : Row)
    (regionRaw parityRaw numRaw nameRaw : String) (n : Int)
    (hm : from_csv rows = .ok m)
    (hr : dictGet row "region" = some regionRaw)
    (hp : dictGet row "odd/even" = some parityRaw)
    (hn : dictGet row "number" = some numRaw)
    (hname : dictGet row "name" = some nameRaw)
    (hint : pyParseInt numRaw = some n) :
    lookupResult (from_csv (rows ++ [row])) (pyStrip regionRaw)
        ⟨pyStrip parityRaw, n⟩ = some (pyStrip nameRaw)
    ∧ ∀ r k, (r ≠ pyStrip regionRaw ∨ k ≠ (⟨pyStrip parityRaw, n⟩ : DiceRoll)) →
        lookupResult (from_csv (rows ++ [row])) r k = dictGet2 m r k := by
  have hstep := dictGet2_after_insert m (pyStrip regionRaw)
    ⟨pyStrip parityRaw, n⟩ (pyStrip nameRaw)
  have hok : from_csv (rows ++ [row]) =
      .ok (dictInsert (defaultdictGet m (pyStrip regionRaw)).2
        (pyStrip regionRaw)
        (dictInsert (defaultdictGet m (pyStrip regionRaw)).1
          ⟨pyStrip parityRaw, n⟩ (pyStrip nameRaw))) := by
    rw [from_csv, from_csvFrom_append]
    rw [from_csv] at hm
    rw [hm]
    simp [from_csvFrom, processRow, hr, hname, hp, hn, hint]
  constructor
  · rw [hok]
    simpa [lookupResult] using hstep.1
  · intro r k hrk
    rw [hok]
    simpa [lookupResult] using hstep.2 r k hrk

theorem C8_from_csv_insert_witness :
    lookupResult (from_csv
        [[("region", " East "), ("odd/even", " odd "), ("number", " 7 "),
          ("name", "Boston")],
         [("region", "East"), ("odd/even", "odd"), ("number", "7"),
          ("name", " Chicago ")]])
      (pyStrip "East") ⟨pyStrip "odd", 7⟩ = some (pyStrip " Chicago ") :=
  (C8_from_csv_insert
    [[("region", " East "), ("odd/even", " odd "), ("number", " 7 "),
      ("name", "Boston")]]
    [("East", [(⟨"odd", 7⟩, "Boston")])]
    [("region", "East"), ("odd/even", "odd"), ("number", "7"),
     ("name", " Chicago ")]
    "East" "odd" "7" " Chicago " 7
    rfl (by decide) (by decide) (by decide) (by decide)
    (by decide)).1

/-- C9 counterexample: no distinct ParseError exists in the code.  A
record with its region field missing makes construction fail with a
KeyError, which IS a LookupError (contradicting the claim that the
failure is not a LookupError), and a non-integer number field makes it
fail with a ValueError — the built-in exceptions, not a parse-specific
one. -/
theorem C9_counterexample :
    from_csv [[("odd/even", "odd"), ("number", "7"), ("name", "Boston")]]
      = .error (.keyError "region")
    ∧ (CsvError.keyError "region").isLookupError = true
    ∧ from_csv [[("region", "East"), ("odd/even", "odd"),
        ("number", "seven"), ("name", "Boston")]]
      = .error (.valueError "seven") := by
  refine ⟨rfl, rfl, rfl⟩

/-- C9 (amended): construction does fail fast on the first malformed
record — the whole construction returns that record's exception, so no
partially built table is made available — but the exception is the
built-in ValueError for a non-integer number field (not a LookupError)
and the built-in KeyError (a LookupError) for a missing region field;
there is no distinct ParseError. -/
theorem C9_fail_fast (rows rest : List Row) (m : DataMaps) (row : Row)
    (e : CsvError)
    (hm : from_csv rows = .ok m)
    (he : processRow m row = .error e) :
    from_csv (rows ++ row :: rest) = .error e
    ∧ (dictGet row "region" = none →
        e = .keyError "region" ∧ e.isLookupError = true)
    ∧ (∀ regionRaw nameRaw parityRaw numRaw,
        dictGet row "region" = some regionRaw →
        dictGet row "name" = some nameRaw →
        dictGet row "odd/even" = some parityRaw →
        dictGet row "number" = some numRaw →
        pyParseInt numRaw = none →
        e = .valueError numRaw ∧ e.isLookupError = false) := by
  refine ⟨?_, ?_, ?_⟩
  · rw [from_csv, from_csvFrom_append]
    rw [from_csv] at hm
    rw [hm]
    simp [from_csvFrom, he]
  · intro h
    simp only [processRow, h, Except.error.injEq] at he
    subst he
    exact ⟨rfl, rfl⟩
  · intro regionRaw nameRaw parityRaw numRaw h1 h2 h3 h4 h5
    simp only [processRow, h1, h2, h3, h4, h5, Except.error.injEq] at he
    subst he
    exact ⟨rfl, rfl⟩

theorem C9_fail_fast_witness :
    from_csv
        ([[("region", "East"), ("odd/even", "odd"), ("number", "7"),
           ("name", "Boston")]]
          ++ [("odd/even", "even"), ("number", "9"), ("name", "Chicago")]
            :: [])
      = .error (.keyError "region") :=
  (C9_fail_fast
    [[("region", "East"), ("odd/even", "odd"), ("number", "7"),
      ("name", "Boston")]]
    []
    [("East", [(⟨"odd", 7⟩, "Boston")])]
    [("odd/even", "even"), ("number", "9"), ("name", "Chicago")]
    (.keyError "region") rfl rfl).1

/-- C10: pick_region is exactly the "area" instance of pick_city: for
every table and every fixed dice outcome the two produce the same
picked name (or the same KeyError) and the same resulting table. -/
theorem C10_pick_region_is_pick_city_area (m : DataMaps) (roll : DiceRoll) :
    pick_region m roll = pick_city m "area" roll := rfl
